import Mathlib

/-!
Verification of the Hyper Commerce storefront backend (`src/main.py`).

The Python service is a FastAPI application over a MongoDB-style document
store with four collections (`user`, `product`, `cart`, `order`).  We embed
the data model and the request handlers that the specification's claims
concern as pure Lean functions over an explicit `DB` state:

* `current_user`   — the authentication gate (`current_user` in the source);
* `register` / `login` — the auth endpoints;
* `add_to_cart` / `remove_cart_item` — cart management;
* `place_order`    — the checkout workflow (instrumented with a write trace
  so that ordering of the order-insert and cart-clear writes is visible).

MongoDB `ObjectId`s are modelled as their 24-character hexadecimal string
form; `ObjectId(s)` raising `bson.errors.InvalidId` on a malformed string is
modelled by `parseObjectId` returning `none`, in which case the handler
surfaces the uncaught exception as a 500 response (FastAPI's behavior for an
exception that is not an `HTTPException`).  Monetary values are embedded as
rationals, and Python's `round(x, 2)` (round-half-to-even) as `round2`.
Timestamps (`datetime.utcnow()`) are passed in explicitly as a `Nat`.
-/

/-- An HTTP error response (`HTTPException(status_code, detail)`), with a 500
status standing for an uncaught exception escaping the handler. -/
structure HErr where
  status : Nat
  detail : String
deriving DecidableEq, Repr

/-- A document in the `user` collection, as written by `register`
(`main.py` lines 168-175); `addresses` is always initialised empty so is
omitted. -/
structure User where
  id : String
  name : String
  email : String
  password_hash : String
  created_at : Nat
deriving DecidableEq, Repr

/-- A document in the `product` collection, as written by `ensure_seed`
(`main.py` lines 129-141). -/
structure Product where
  id : String
  title : String
  description : String
  price : ℚ
  image : Option String
  vertical : String
  category : String
  category_slug : String
  vendor : String
  in_stock : Bool
  rating : ℚ
  created_at : Nat
deriving DecidableEq, Repr

/-- A document in the `cart` collection, as written by `add_to_cart`
(`main.py` lines 240-250). -/
structure CartItem where
  id : String
  user_id : String
  product_id : String
  title : String
  price : ℚ
  image : Option String
  quantity : Int
  vertical : String
  created_at : Nat
  updated_at : Nat
deriving DecidableEq, Repr

/-- A line item embedded in an order document (`main.py` lines 273-280):
a value copy of the corresponding cart item's fields. -/
structure OrderItem where
  product_id : String
  title : String
  price : ℚ
  image : Option String
  quantity : Int
  vertical : String
deriving DecidableEq, Repr

/-- A document in the `order` collection, as written by `place_order`
(`main.py` lines 270-289). -/
structure Order where
  id : String
  user_id : String
  items : List OrderItem
  total : ℚ
  address : String
  payment_method : String
  status : String
  created_at : Nat
  order_number : String
deriving DecidableEq, Repr

/-- The document store: the four collections used by the handlers, each in
natural (insertion) order, plus the ObjectId generation counter. -/
structure DB where
  user : List User
  product : List Product
  cart : List CartItem
  order : List Order
  nextId : Nat
deriving DecidableEq, Repr

/-- `CartItemPayload` (`main.py` lines 34-36): the request body of
`POST /cart`.  Pydantic's `Field(ge=1)` bound is the separate predicate
`CartItemPayload.valid`. -/
structure CartItemPayload where
  product_id : String
  quantity : Int
deriving DecidableEq, Repr

/-- The transport-layer validation pydantic performs on `CartItemPayload`:
`quantity: int = Field(ge=1)`. -/
def CartItemPayload.valid (p : CartItemPayload) : Prop := 1 ≤ p.quantity

instance : DecidablePred CartItemPayload.valid := fun p =>
  inferInstanceAs (Decidable (1 ≤ p.quantity))

/-- `PlaceOrderPayload` (`main.py` lines 38-40): the request body of
`POST /orders`. -/
structure PlaceOrderPayload where
  address : String
  payment_method : String
deriving DecidableEq, Repr

/-- Response of `register` and `login`: the token together with the echoed
user fields. -/
structure AuthResp where
  token : String
  user_id : String
  name : String
  email : String
deriving DecidableEq, Repr

/-- Response of `place_order` (`main.py` line 292). -/
structure PlaceOrderResp where
  id : String
  order_number : String
  total : ℚ
deriving DecidableEq, Repr

/-- A write issued against the document store; `place_order` is instrumented
with a list of these in program order. -/
inductive DBEvent where
  | orderInsert (o : Order)
  | cartClear (user_id : String)
deriving DecidableEq, Repr

/-- Is `c` a hexadecimal digit (either case)?  `bson.ObjectId` accepts
24-character hex strings case-insensitively. -/
def isHexChar (c : Char) : Bool :=
  c.isDigit || ('a' ≤ c && c ≤ 'f') || ('A' ≤ c && c ≤ 'F')

/-- A string is a well-formed `ObjectId` literal iff it is 24 hex characters.
(`bson.ObjectId` also accepts 12-byte binary input, which cannot arrive via
these string-typed fields.) -/
def isValidObjectId (s : String) : Bool :=
  s.length == 24 && s.toList.all isHexChar

/-- Python's `str.lower()`, modelled characterwise (the strings the handlers
lowercase — auth schemes and hex ids — are ASCII). -/
def lowerStr (s : String) : String := String.mk (s.data.map Char.toLower)

/-- Split a character list at every occurrence of `sep`, keeping empty
groups — the semantics of Python's `str.split(sep)` for a one-character
separator. -/
def splitChar (sep : Char) : List Char → List (List Char)
  | [] => [[]]
  | c :: rest =>
    if c = sep then [] :: splitChar sep rest
    else
      match splitChar sep rest with
      | [] => [[c]]
      | g :: gs => (c :: g) :: gs

/-- Python's `s.split(" ")`: split at every single space, keeping empties
(so `""` gives `[""]` and `"a  b"` gives `["a", "", "b"]`). -/
def pySplitSpace (s : String) : List String :=
  (splitChar ' ' s.data).map String.mk

/-- `ObjectId(s)`: `some` of the normalised (lowercase) id when `s` is well
formed, `none` when the constructor raises `bson.errors.InvalidId`. -/
def parseObjectId (s : String) : Option String :=
  if isValidObjectId s then some (lowerStr s) else none

/-- The id `insert_one` assigns to the `n`-th inserted document: a fresh
24-character lowercase hex `ObjectId`, modelled as the hex form of `n`
zero-padded to 24 characters. -/
def objIdOfNat (n : Nat) : String :=
  let ds := Nat.toDigits 16 n
  String.mk (List.replicate (24 - ds.length) '0' ++ ds)

/-- `hash_password` (`main.py` lines 46-47).  The source computes the
SHA-256 hex digest; since the handlers observe digests only up to equality,
the digest function is modelled as an injective tagging of the password. -/
def hash_password (pw : String) : String := "sha256:" ++ pw

/-- `round(x, 2)` in Python: round to the nearest multiple of 1/100, ties to
even. -/
def roundHalfEven (x : ℚ) : Int :=
  let n := ⌊x⌋
  if x - n < 1/2 then n
  else if 1/2 < x - n then n + 1
  else if n % 2 = 0 then n else n + 1

/-- Round a rational to 2 decimal places, Python `round` semantics. -/
def round2 (x : ℚ) : ℚ := (roundHalfEven (x * 100) : ℚ) / 100

/-- `update_one`: apply `f` to the first element satisfying `p`, leaving the
rest unchanged. -/
def updateFirst (p : CartItem → Bool) (f : CartItem → CartItem) :
    List CartItem → List CartItem
  | [] => []
  | x :: xs => if p x then f x :: xs else x :: updateFirst p f xs

/-- `delete_one`: remove the first element satisfying `p`; the second
component is the `deleted_count` (0 or 1). -/
def deleteFirst (p : CartItem → Bool) : List CartItem → List CartItem × Nat
  | [] => ([], 0)
  | x :: xs =>
    if p x then (xs, 1)
    else
      let r := deleteFirst p xs
      (x :: r.1, r.2)

/-- `current_user` (`main.py` lines 49-64): the authentication gate.  Reads
the store, never writes it (the handler only calls `find_one`), hence the
result type carries no state.  A well-formed header whose token is not a
well-formed `ObjectId` makes `ObjectId(token)` raise outside the
`try/except`, which surfaces as a 500. -/
def current_user (db : DB) (authorization : Option String) : Except HErr User :=
  match authorization with
  | none => .error ⟨401, "Missing Authorization header"⟩
  | some a =>
    if a = "" then .error ⟨401, "Missing Authorization header"⟩
    else
      match pySplitSpace a with
      | [scheme, token] =>
        if lowerStr scheme = "bearer" ∧ token ≠ "" then
          match parseObjectId token with
          | none => .error ⟨500, "Internal Server Error"⟩
          | some tid =>
            match db.user.find? (fun u => u.id = tid) with
            | none => .error ⟨401, "Invalid user"⟩
            | some u => .ok u
        else .error ⟨401, "Invalid token"⟩
      | _ => .error ⟨401, "Invalid Authorization header"⟩

/-- `register` (`main.py` lines 163-176): reject a duplicate email with 400,
otherwise insert the user and return its id as the token. -/
def register (db : DB) (now : Nat) (name email password : String) :
    Except HErr AuthResp × DB :=
  match db.user.find? (fun u => u.email = email) with
  | some _ => (.error ⟨400, "Email already registered"⟩, db)
  | none =>
    let uid := objIdOfNat db.nextId
    let u : User :=
      { id := uid, name := name, email := email
        password_hash := hash_password password, created_at := now }
    (.ok ⟨uid, uid, name, email⟩,
      { db with user := db.user ++ [u], nextId := db.nextId + 1 })

/-- `login` (`main.py` lines 178-183): look the user up by email and compare
password hashes; any mismatch is a 401. -/
def login (db : DB) (email password : String) : Except HErr AuthResp :=
  match db.user.find? (fun u => u.email = email) with
  | none => .error ⟨401, "Invalid credentials"⟩
  | some u =>
    if u.password_hash ≠ hash_password password then
      .error ⟨401, "Invalid credentials"⟩
    else .ok ⟨u.id, u.id, u.name, u.email⟩

/-- `add_to_cart` (`main.py` lines 229-251): look the product up by id
(404 when absent), then either increment the quantity of the existing
(user, product) row, or insert a new row denormalising
title/price/image/vertical from the product. -/
def add_to_cart (db : DB) (now : Nat) (payload : CartItemPayload) (user : User) :
    Except HErr String × DB :=
  match parseObjectId payload.product_id with
  | none => (.error ⟨500, "Internal Server Error"⟩, db)
  | some pid =>
    match db.product.find? (fun p => p.id = pid) with
    | none => (.error ⟨404, "Product not found"⟩, db)
    | some prod =>
      match db.cart.find?
          (fun c => c.user_id = user.id ∧ c.product_id = payload.product_id) with
      | some existing =>
        (.ok existing.id,
          { db with
            cart := updateFirst (fun c => c.id = existing.id)
              (fun c => { c with quantity := c.quantity + payload.quantity
                                 updated_at := now }) db.cart })
      | none =>
        let cid := objIdOfNat db.nextId
        (.ok cid,
          { db with
            cart := db.cart ++
              [{ id := cid, user_id := user.id, product_id := payload.product_id
                 title := prod.title, price := prod.price, image := prod.image
                 quantity := payload.quantity, vertical := prod.vertical
                 created_at := now, updated_at := now }]
            nextId := db.nextId + 1 })

/-- `remove_cart_item` (`main.py` lines 253-259): `delete_one` scoped to
`{_id: item_id, user_id: caller}`; 404 when nothing was deleted. -/
def remove_cart_item (db : DB) (item_id : String) (user : User) :
    Except HErr Bool × DB :=
  match parseObjectId item_id with
  | none => (.error ⟨500, "Internal Server Error"⟩, db)
  | some iid =>
    let r := deleteFirst (fun c => c.id = iid ∧ c.user_id = user.id) db.cart
    if r.2 = 0 then (.error ⟨404, "Item not found"⟩, { db with cart := r.1 })
    else (.ok true, { db with cart := r.1 })

/-- The value copy `place_order` takes of a cart item (`main.py`
lines 273-280). -/
def snapshotItem (i : CartItem) : OrderItem :=
  { product_id := i.product_id, title := i.title, price := i.price
    image := i.image, quantity := i.quantity, vertical := i.vertical }

/-- The order number `ORD-<utcnow at second granularity>` (`main.py`
line 288), with the timestamp abstracted to the `now` parameter. -/
def orderNumber (now : Nat) : String := "ORD-" ++ toString now

/-- `place_order` (`main.py` lines 264-292): read the caller's cart, fail
with 400 if empty, otherwise compute the rounded total, snapshot the items
into a new order, insert the order, and clear the cart.  The third component
records the writes issued, in program order. -/
def place_order (db : DB) (now : Nat) (payload : PlaceOrderPayload) (user : User) :
    Except HErr PlaceOrderResp × DB × List DBEvent :=
  let items := db.cart.filter (fun c => c.user_id = user.id)
  if items.isEmpty then (.error ⟨400, "Cart is empty"⟩, db, [])
  else
    let total := (items.map (fun i => i.price * (i.quantity : ℚ))).sum
    let oid := objIdOfNat db.nextId
    let o : Order :=
      { id := oid, user_id := user.id
        items := items.map snapshotItem
        total := round2 total
        address := payload.address, payment_method := payload.payment_method
        status := "placed", created_at := now
        order_number := orderNumber now }
    let db1 : DB := { db with order := db.order ++ [o], nextId := db.nextId + 1 }
    let db2 : DB := { db1 with cart := db1.cart.filter (fun c => ¬ c.user_id = user.id) }
    (.ok ⟨oid, o.order_number, o.total⟩, db2,
      [DBEvent.orderInsert o, DBEvent.cartClear user.id])

/-- A product-store mutation: set the price of the product with id `pid`.
The repository has no product-update endpoint (products are immutable after
seeding), so "subsequently modifying the originating Product's price" is
modelled as this direct store write. -/
def set_product_price (db : DB) (pid : String) (newPrice : ℚ) : DB :=
  { db with
    product := db.product.map
      (fun p => if p.id = pid then { p with price := newPrice } else p) }

/-! ### Helper definitions and unfolding lemmas -/

/-- The caller's cart as read at step 1 of checkout:
`list(db.cart.find({"user_id": user["id"]}))`. -/
def userCart (db : DB) (u : User) : List CartItem :=
  db.cart.filter (fun c => c.user_id = u.id)

/-- The sum `Σ price×quantity` over a list of cart items. -/
def cartTotal (items : List CartItem) : ℚ :=
  (items.map (fun i => i.price * (i.quantity : ℚ))).sum

/-- The order document a successful checkout builds from the pre-checkout
cart. -/
def checkoutOrder (db : DB) (now : Nat) (p : PlaceOrderPayload) (u : User) :
    Order :=
  { id := objIdOfNat db.nextId, user_id := u.id
    items := (userCart db u).map snapshotItem
    total := round2 (cartTotal (userCart db u))
    address := p.address, payment_method := p.payment_method
    status := "placed", created_at := now, order_number := orderNumber now }

theorem place_order_of_empty (db : DB) (now : Nat) (p : PlaceOrderPayload)
    (u : User) (h : userCart db u = []) :
    place_order db now p u = (.error ⟨400, "Cart is empty"⟩, db, []) := by
  unfold place_order
  rw [show db.cart.filter (fun c => decide (c.user_id = u.id)) = [] from h]
  rfl

theorem place_order_of_ne (db : DB) (now : Nat) (p : PlaceOrderPayload)
    (u : User) (h : userCart db u ≠ []) :
    place_order db now p u =
      (.ok ⟨objIdOfNat db.nextId, orderNumber now,
            round2 (cartTotal (userCart db u))⟩,
       { db with
         order := db.order ++ [checkoutOrder db now p u]
         cart := db.cart.filter (fun c => ¬ c.user_id = u.id)
         nextId := db.nextId + 1 },
       [DBEvent.orderInsert (checkoutOrder db now p u),
        DBEvent.cartClear u.id]) := by
  have hne : (db.cart.filter (fun c => decide (c.user_id = u.id))).isEmpty = false := by
    rw [← Bool.not_eq_true, List.isEmpty_iff]
    exact h
  simp only [place_order, hne]
  rfl

/-! ### C1 -/

/-- C1: for every authenticated user with a non-empty cart, checkout creates
exactly one new Order (the order store grows by exactly that one document),
whose total is `round(Σ price×quantity, 2)` over the cart items read at
step 1, whose line items copy product_id/title/price/image/quantity/vertical
from those cart items, and afterwards the user's cart contains no items. -/
theorem C1_checkout_nonempty (db : DB) (now : Nat) (p : PlaceOrderPayload)
    (u : User) (h : userCart db u ≠ []) :
    ∃ o : Order,
      (place_order db now p u).2.1.order = db.order ++ [o] ∧
      o.items = (userCart db u).map snapshotItem ∧
      o.total = round2 (cartTotal (userCart db u)) ∧
      userCart (place_order db now p u).2.1 u = [] := by
  refine ⟨checkoutOrder db now p u, ?_, rfl, rfl, ?_⟩
  · rw [place_order_of_ne db now p u h]
  · rw [place_order_of_ne db now p u h]
    simp [userCart, List.filter_filter]

/-- Witness for C1 at a concrete one-item cart. -/
def userW : User :=
  { id := objIdOfNat 0, name := "a", email := "a@b.c"
    password_hash := hash_password "pw", created_at := 0 }

/-- A concrete seeded product used by the witnesses. -/
def prodW : Product :=
  { id := objIdOfNat 1, title := "T", description := "d", price := (551/100 : ℚ)
    image := some "img", vertical := "grocery", category := "c"
    category_slug := "c", vendor := "v", in_stock := true, rating := 4
    created_at := 0 }

/-- A concrete cart row of `userW` for `prodW`, used by the witnesses. -/
def itemW : CartItem :=
  { id := objIdOfNat 2, user_id := userW.id, product_id := prodW.id
    title := prodW.title, price := prodW.price, image := prodW.image
    quantity := 3, vertical := prodW.vertical, created_at := 1, updated_at := 1 }

/-- A concrete store with a one-item cart, used by the witnesses. -/
def dbW : DB :=
  { user := [userW], product := [prodW], cart := [itemW], order := [], nextId := 3 }

theorem C1_checkout_nonempty_witness :
    userCart dbW userW ≠ [] ∧
    ∃ o : Order,
      (place_order dbW 7 ⟨"addr", "cod"⟩ userW).2.1.order = dbW.order ++ [o] ∧
      o.items = (userCart dbW userW).map snapshotItem ∧
      o.total = round2 (cartTotal (userCart dbW userW)) ∧
      userCart (place_order dbW 7 ⟨"addr", "cod"⟩ userW).2.1 userW = [] :=
  ⟨by decide, C1_checkout_nonempty dbW 7 ⟨"addr", "cod"⟩ userW (by decide)⟩

/-! ### C2 -/

/-- C2: for every authenticated user whose cart is empty, checkout fails
with the 400 "Cart is empty" error, creates no Order, issues no write, and
leaves the whole store (all four collections) unchanged. -/
theorem C2_checkout_empty (db : DB) (now : Nat) (p : PlaceOrderPayload)
    (u : User) (h : userCart db u = []) :
    place_order db now p u = (.error ⟨400, "Cart is empty"⟩, db, []) :=
  place_order_of_empty db now p u h

/-- Witness for C2: the store after checking out `dbW` has an empty cart for
`userW`, and a second checkout fails leaving it unchanged. -/
theorem C2_checkout_empty_witness :
    userCart { dbW with cart := [] } userW = [] ∧
    place_order { dbW with cart := [] } 9 ⟨"a2", "card"⟩ userW =
      (.error ⟨400, "Cart is empty"⟩, { dbW with cart := [] }, []) :=
  ⟨by decide, C2_checkout_empty { dbW with cart := [] } 9 ⟨"a2", "card"⟩ userW (by decide)⟩

/-! ### C3 -/

/-- C3: within a single checkout invocation the order insert happens before
the cart clear, and the cart is never cleared unless the order was recorded:
on the success path the write trace is exactly the order-insert followed by
the cart-clear and the inserted order is in the resulting order store, while
on every failure path no write at all is issued and the cart (indeed the
whole store) is unchanged. -/
theorem C3_order_before_clear (db : DB) (now : Nat) (p : PlaceOrderPayload)
    (u : User) :
    (∀ e, (place_order db now p u).1 = .error e →
      (place_order db now p u).2.2 = [] ∧ (place_order db now p u).2.1 = db) ∧
    (∀ r, (place_order db now p u).1 = .ok r →
      ∃ o, (place_order db now p u).2.2 =
          [DBEvent.orderInsert o, DBEvent.cartClear u.id] ∧
        o ∈ (place_order db now p u).2.1.order) := by
  by_cases h : userCart db u = []
  · rw [place_order_of_empty db now p u h]
    refine ⟨fun e _ => ⟨rfl, rfl⟩, fun r hr => ?_⟩
    cases hr
  · rw [place_order_of_ne db now p u h]
    refine ⟨fun e he => ?_, fun r _ => ⟨checkoutOrder db now p u, rfl, ?_⟩⟩
    · cases he
    · simp

/-! ### C4 -/

theorem updateFirst_append_cons (p : CartItem → Bool) (f : CartItem → CartItem)
    (pre : List CartItem) (ex : CartItem) (post : List CartItem)
    (hpre : ∀ x ∈ pre, p x = false) (hex : p ex = true) :
    updateFirst p f (pre ++ ex :: post) = pre ++ f ex :: post := by
  induction pre with
  | nil => simp [updateFirst, hex]
  | cons a t ih =>
    have ha := hpre a (List.mem_cons_self a t)
    have ht := ih (fun x hx => hpre x (List.mem_cons_of_mem a hx))
    have hstep : updateFirst p f (a :: (t ++ ex :: post)) =
        a :: updateFirst p f (t ++ ex :: post) := by
      simp [updateFirst, ha]
    simp only [List.cons_append, hstep, ht]

/-- C4: for every valid add-to-cart (quantity ≥ 1) where the product exists
(in a store whose cart rows have distinct ids): when a cart row for the same
(user, product) already exists, that row's quantity is incremented by the
given quantity and its updated time refreshed, every other row is untouched,
and no second row is created (the cart's length is unchanged); when no such
row exists, exactly one new row is appended with the given quantity and with
title/price/image/vertical copied from the product. -/
theorem C4_add_to_cart (db : DB) (now : Nat) (payload : CartItemPayload)
    (u : User) (pid : String) (prod : Product)
    (hq : payload.valid)
    (hpid : parseObjectId payload.product_id = some pid)
    (hprod : db.product.find? (fun p => p.id = pid) = some prod)
    (huniq : db.cart.Pairwise (fun a b => a.id ≠ b.id)) :
    (∀ ex, db.cart.find?
        (fun c => c.user_id = u.id ∧ c.product_id = payload.product_id) = some ex →
      ∃ pre post,
        db.cart = pre ++ ex :: post ∧
        (add_to_cart db now payload u).2.cart =
          pre ++ { ex with quantity := ex.quantity + payload.quantity
                           updated_at := now } :: post ∧
        ((add_to_cart db now payload u).2.cart).length = db.cart.length) ∧
    (db.cart.find?
        (fun c => c.user_id = u.id ∧ c.product_id = payload.product_id) = none →
      (add_to_cart db now payload u).2.cart =
        db.cart ++
          [{ id := objIdOfNat db.nextId, user_id := u.id
             product_id := payload.product_id, title := prod.title
             price := prod.price, image := prod.image
             quantity := payload.quantity, vertical := prod.vertical
             created_at := now, updated_at := now }]) := by
  constructor
  · intro ex hfind
    obtain ⟨hpex, pre, post, hsplit, hpre⟩ := List.find?_eq_some.mp hfind
    have hpreid : ∀ x ∈ pre, (decide (x.id = ex.id)) = false := by
      intro x hx
      have hmem : ex ∈ ex :: post := List.mem_cons_self ex post
      have := (List.pairwise_append.mp (hsplit ▸ huniq)).2.2 x hx ex hmem
      simpa using this
    refine ⟨pre, post, hsplit, ?_, ?_⟩
    · simp only [add_to_cart, hpid, hprod, hfind]
      rw [hsplit, updateFirst_append_cons _ _ pre ex post hpreid (by simp)]
    · simp only [add_to_cart, hpid, hprod, hfind]
      rw [hsplit, updateFirst_append_cons _ _ pre ex post hpreid (by simp)]
      simp
  · intro hfind
    simp only [add_to_cart, hpid, hprod, hfind]

/-- The `POST /cart` body used by the witnesses: add 2 units of `prodW`. -/
def payloadW : CartItemPayload := { product_id := prodW.id, quantity := 2 }

theorem C4_add_to_cart_witness :
    (payloadW.valid ∧ parseObjectId payloadW.product_id = some prodW.id ∧
      dbW.product.find? (fun p => p.id = prodW.id) = some prodW ∧
      dbW.cart.Pairwise (fun a b => a.id ≠ b.id)) ∧
    ((∀ ex, dbW.cart.find?
        (fun c => c.user_id = userW.id ∧ c.product_id = payloadW.product_id) = some ex →
      ∃ pre post,
        dbW.cart = pre ++ ex :: post ∧
        (add_to_cart dbW 5 payloadW userW).2.cart =
          pre ++ { ex with quantity := ex.quantity + payloadW.quantity
                           updated_at := 5 } :: post ∧
        ((add_to_cart dbW 5 payloadW userW).2.cart).length = dbW.cart.length) ∧
    (dbW.cart.find?
        (fun c => c.user_id = userW.id ∧ c.product_id = payloadW.product_id) = none →
      (add_to_cart dbW 5 payloadW userW).2.cart =
        dbW.cart ++
          [{ id := objIdOfNat dbW.nextId, user_id := userW.id
             product_id := payloadW.product_id, title := prodW.title
             price := prodW.price, image := prodW.image
             quantity := payloadW.quantity, vertical := prodW.vertical
             created_at := 5, updated_at := 5 }])) :=
  ⟨⟨by decide, by rfl, by rfl, by simp [dbW]⟩,
    C4_add_to_cart dbW 5 payloadW userW prodW.id prodW
      (by decide) (by rfl) (by rfl) (by simp [dbW])⟩

/-! ### C5 -/

theorem deleteFirst_of_none (p : CartItem → Bool) (l : List CartItem)
    (h : ∀ x ∈ l, p x = false) : deleteFirst p l = (l, 0) := by
  induction l with
  | nil => rfl
  | cons a t ih =>
    have ha := h a (List.mem_cons_self a t)
    simp only [deleteFirst, ha, Bool.false_eq_true, if_false,
      ih (fun x hx => h x (List.mem_cons_of_mem a hx))]

theorem deleteFirst_append_cons (p : CartItem → Bool)
    (pre : List CartItem) (c : CartItem) (post : List CartItem)
    (hpre : ∀ x ∈ pre, p x = false) (hc : p c = true) :
    deleteFirst p (pre ++ c :: post) = (pre ++ post, 1) := by
  induction pre with
  | nil => simp [deleteFirst, hc]
  | cons a t ih =>
    have ha := hpre a (List.mem_cons_self a t)
    have ht := ih (fun x hx => hpre x (List.mem_cons_of_mem a hx))
    have hstep : deleteFirst p (a :: (t ++ c :: post)) =
        (a :: (deleteFirst p (t ++ c :: post)).1,
         (deleteFirst p (t ++ c :: post)).2) := by
      simp [deleteFirst, ha]
    simp only [List.cons_append, hstep, ht]

/-- C5: for every authenticated user and well-formed cart-item id: when no
cart row has that id together with that owner — the item does not exist, or
belongs to a different user — the removal fails with the 404 "Item not
found" error and the whole store is unchanged; when the first matching row
exists, exactly that row is deleted and nothing else changes. -/
theorem C5_remove_cart_item (db : DB) (u : User) (item_id iid : String)
    (hid : parseObjectId item_id = some iid) :
    ((∀ c ∈ db.cart, ¬(c.id = iid ∧ c.user_id = u.id)) →
      remove_cart_item db item_id u = (.error ⟨404, "Item not found"⟩, db)) ∧
    (∀ pre c post, db.cart = pre ++ c :: post →
      (∀ x ∈ pre, ¬(x.id = iid ∧ x.user_id = u.id)) →
      c.id = iid → c.user_id = u.id →
      remove_cart_item db item_id u = (.ok true, { db with cart := pre ++ post })) := by
  constructor
  · intro hnone
    have hdel : deleteFirst
        (fun c => decide (c.id = iid ∧ c.user_id = u.id)) db.cart = (db.cart, 0) := by
      apply deleteFirst_of_none
      intro x hx
      simpa using hnone x hx
    simp only [remove_cart_item, hid, hdel]
    simp
  · intro pre c post hsplit hpre hcid huid
    have hdel : deleteFirst
        (fun c => decide (c.id = iid ∧ c.user_id = u.id)) db.cart = (pre ++ post, 1) := by
      rw [hsplit]
      apply deleteFirst_append_cons
      · intro x hx
        simpa using hpre x hx
      · simp [hcid, huid]
    simp only [remove_cart_item, hid, hdel]
    simp

theorem C5_remove_cart_item_witness :
    parseObjectId itemW.id = some itemW.id ∧
    (((∀ c ∈ dbW.cart, ¬(c.id = itemW.id ∧ c.user_id = userW.id)) →
      remove_cart_item dbW itemW.id userW = (.error ⟨404, "Item not found"⟩, dbW)) ∧
    (∀ pre c post, dbW.cart = pre ++ c :: post →
      (∀ x ∈ pre, ¬(x.id = itemW.id ∧ x.user_id = userW.id)) →
      c.id = itemW.id → c.user_id = userW.id →
      remove_cart_item dbW itemW.id userW = (.ok true, { dbW with cart := pre ++ post }))) :=
  ⟨by rfl, C5_remove_cart_item dbW userW itemW.id itemW.id (by rfl)⟩

/-! ### C8 -/

/-- C8: for every pair of registration requests with the same email (the
email being free beforehand), the first succeeds — appending exactly one
user document and returning its fresh id as the token — and the second
fails with the 400 "Email already registered" conflict, leaving the store
(in particular the user collection) exactly as the first left it. -/
theorem C8_register_duplicate_email (db : DB) (now1 now2 : Nat)
    (n1 e p1 n2 p2 : String)
    (hfree : db.user.find? (fun u => u.email = e) = none) :
    ∃ r1 db1,
      register db now1 n1 e p1 = (.ok r1, db1) ∧
      r1.token = objIdOfNat db.nextId ∧
      db1.user = db.user ++
        [{ id := objIdOfNat db.nextId, name := n1, email := e
           password_hash := hash_password p1, created_at := now1 }] ∧
      register db1 now2 n2 e p2 = (.error ⟨400, "Email already registered"⟩, db1) := by
  refine ⟨⟨objIdOfNat db.nextId, objIdOfNat db.nextId, n1, e⟩,
    { db with
      user := db.user ++
        [{ id := objIdOfNat db.nextId, name := n1, email := e
           password_hash := hash_password p1, created_at := now1 }]
      nextId := db.nextId + 1 }, ?_, rfl, rfl, ?_⟩
  · simp only [register, hfree]
  · have hfind : (db.user ++
        [{ id := objIdOfNat db.nextId, name := n1, email := e
           password_hash := hash_password p1, created_at := now1 : User }]).find?
          (fun u => u.email = e) =
        some { id := objIdOfNat db.nextId, name := n1, email := e
               password_hash := hash_password p1, created_at := now1 } := by
      rw [List.find?_append, hfree]
      simp
    simp only [register, hfind]

theorem C8_register_duplicate_email_witness :
    dbW.user.find? (fun u => u.email = "new@b.c") = none ∧
    ∃ r1 db1,
      register dbW 11 "n" "new@b.c" "secret" = (.ok r1, db1) ∧
      r1.token = objIdOfNat dbW.nextId ∧
      db1.user = dbW.user ++
        [{ id := objIdOfNat dbW.nextId, name := "n", email := "new@b.c"
           password_hash := hash_password "secret", created_at := 11 }] ∧
      register db1 12 "n2" "new@b.c" "other" =
        (.error ⟨400, "Email already registered"⟩, db1) :=
  ⟨by rfl, C8_register_duplicate_email dbW 11 12 "n" "new@b.c" "secret" "n2" "other" (by rfl)⟩

/-! ### C10 -/

theorem hash_password_injective : Function.Injective hash_password := by
  intro a b h
  have hd : (hash_password a).data = (hash_password b).data := by rw [h]
  simp only [hash_password, String.data_append] at hd
  exact String.ext (List.append_cancel_left hd)

/-- C10: registering (name, email, password) on a store where the email is
free succeeds, and an immediate login with the same (email, password)
succeeds returning the very same response — in particular the same token,
the user's id — while a login with the same email and a different password
fails with the 401 "Invalid credentials" error. -/
theorem C10_register_login_roundtrip (db : DB) (now : Nat)
    (name e pw pw' : String)
    (hfree : db.user.find? (fun u => u.email = e) = none)
    (hne : pw' ≠ pw) :
    ∃ r1 db1,
      register db now name e pw = (.ok r1, db1) ∧
      login db1 e pw = .ok r1 ∧
      login db1 e pw' = .error ⟨401, "Invalid credentials"⟩ := by
  have hfind : (db.user ++
      [{ id := objIdOfNat db.nextId, name := name, email := e
         password_hash := hash_password pw, created_at := now : User }]).find?
        (fun u => u.email = e) =
      some { id := objIdOfNat db.nextId, name := name, email := e
             password_hash := hash_password pw, created_at := now } := by
    rw [List.find?_append, hfree]
    simp
  refine ⟨⟨objIdOfNat db.nextId, objIdOfNat db.nextId, name, e⟩,
    { db with
      user := db.user ++
        [{ id := objIdOfNat db.nextId, name := name, email := e
           password_hash := hash_password pw, created_at := now }]
      nextId := db.nextId + 1 }, ?_, ?_, ?_⟩
  · simp only [register, hfree]
  · simp only [login, hfind]
    simp
  · simp only [login, hfind]
    rw [if_pos (show hash_password pw ≠ hash_password pw' from
      fun hcontra => hne (hash_password_injective hcontra).symm)]

theorem C10_register_login_roundtrip_witness :
    (dbW.user.find? (fun u => u.email = "rt@b.c") = none ∧ "pw2" ≠ "pw1") ∧
    ∃ r1 db1,
      register dbW 13 "rt" "rt@b.c" "pw1" = (.ok r1, db1) ∧
      login db1 "rt@b.c" "pw1" = .ok r1 ∧
      login db1 "rt@b.c" "pw2" = .error ⟨401, "Invalid credentials"⟩ :=
  ⟨⟨by rfl, by decide⟩,
    C10_register_login_roundtrip dbW 13 "rt" "rt@b.c" "pw1" "pw2" (by rfl) (by decide)⟩

/-! ### C9 -/

/-- The cart-store invariant of the data model: every row's quantity is at
least 1. -/
def cartQuantitiesValid (db : DB) : Prop := ∀ c ∈ db.cart, 1 ≤ c.quantity

theorem mem_updateFirst (p : CartItem → Bool) (f : CartItem → CartItem)
    (l : List CartItem) (x : CartItem) (hx : x ∈ updateFirst p f l) :
    x ∈ l ∨ ∃ y ∈ l, x = f y := by
  induction l with
  | nil => cases hx
  | cons a t ih =>
    by_cases ha : p a
    · simp only [updateFirst, ha, if_true] at hx
      rcases List.mem_cons.mp hx with h | h
      · exact .inr ⟨a, List.mem_cons_self a t, h⟩
      · exact .inl (List.mem_cons_of_mem a h)
    · simp only [updateFirst, ha, if_false] at hx
      rcases List.mem_cons.mp hx with h | h
      · exact .inl (h ▸ List.mem_cons_self a t)
      · rcases ih h with h' | ⟨y, hy, hxy⟩
        · exact .inl (List.mem_cons_of_mem a h')
        · exact .inr ⟨y, List.mem_cons_of_mem a hy, hxy⟩

theorem mem_deleteFirst_fst (p : CartItem → Bool) (l : List CartItem)
    (x : CartItem) (hx : x ∈ (deleteFirst p l).1) : x ∈ l := by
  induction l with
  | nil => cases hx
  | cons a t ih =>
    by_cases ha : p a
    · simp only [deleteFirst, ha, if_true] at hx
      exact List.mem_cons_of_mem a hx
    · simp only [deleteFirst, ha, if_false] at hx
      rcases List.mem_cons.mp hx with h | h
      · exact h ▸ List.mem_cons_self a t
      · exact List.mem_cons_of_mem a (ih h)

/-- C9: quantities in the cart store are always ≥ 1, and the invariant is
preserved by every cart-touching operation — add-to-cart with a validated
payload (a new row gets the validated quantity; an existing row is
incremented by it), remove, and checkout's cart clear. -/
theorem C9_cart_quantity_invariant (db : DB) (now : Nat)
    (payload : CartItemPayload) (u u2 u3 : User) (item_id : String)
    (p : PlaceOrderPayload)
    (hdb : cartQuantitiesValid db) (hq : payload.valid) :
    cartQuantitiesValid (add_to_cart db now payload u).2 ∧
    cartQuantitiesValid (remove_cart_item db item_id u2).2 ∧
    cartQuantitiesValid (place_order db now p u3).2.1 := by
  refine ⟨?_, ?_, ?_⟩
  · cases hpid : parseObjectId payload.product_id with
    | none => simp only [add_to_cart, hpid]; exact hdb
    | some pid =>
      cases hprod : db.product.find? (fun pr => pr.id = pid) with
      | none => simp only [add_to_cart, hpid, hprod]; exact hdb
      | some prod =>
        cases hfind : db.cart.find?
            (fun c => c.user_id = u.id ∧ c.product_id = payload.product_id) with
        | some existing =>
          simp only [add_to_cart, hpid, hprod, hfind]
          intro c hc
          rcases mem_updateFirst _ _ _ c hc with h | ⟨y, hy, hxy⟩
          · exact hdb c h
          · have h1 := hdb y hy
            have h2 := hq
            simp only [CartItemPayload.valid] at h2
            subst hxy
            simp only
            omega
        | none =>
          simp only [add_to_cart, hpid, hprod, hfind]
          intro c hc
          rcases List.mem_append.mp hc with h | h
          · exact hdb c h
          · rcases List.mem_singleton.mp h with rfl
            exact hq
  · cases hpid : parseObjectId item_id with
    | none => simp only [remove_cart_item, hpid]; exact hdb
    | some iid =>
      by_cases hcnt : (deleteFirst
          (fun c => decide (c.id = iid ∧ c.user_id = u2.id)) db.cart).2 = 0
      all_goals
        simp only [remove_cart_item, hpid, hcnt, if_true, if_false]
        intro c hc
        exact hdb c (mem_deleteFirst_fst _ _ c hc)
  · by_cases h : userCart db u3 = []
    · rw [place_order_of_empty db now p u3 h]
      exact hdb
    · rw [place_order_of_ne db now p u3 h]
      intro c hc
      exact hdb c (List.mem_of_mem_filter hc)

theorem C9_cart_quantity_invariant_witness :
    (cartQuantitiesValid dbW ∧ payloadW.valid) ∧
    (cartQuantitiesValid (add_to_cart dbW 5 payloadW userW).2 ∧
     cartQuantitiesValid (remove_cart_item dbW itemW.id userW).2 ∧
     cartQuantitiesValid (place_order dbW 7 ⟨"addr", "cod"⟩ userW).2.1) :=
  ⟨⟨by intro c hc; rcases List.mem_singleton.mp hc with rfl; decide, by decide⟩,
    C9_cart_quantity_invariant dbW 5 payloadW userW userW userW itemW.id
      ⟨"addr", "cod"⟩ (by intro c hc; rcases List.mem_singleton.mp hc with rfl; decide)
      (by decide)⟩

/-! ### C7 -/

theorem add_to_cart_order_frame (db : DB) (now : Nat)
    (payload : CartItemPayload) (u : User) :
    (add_to_cart db now payload u).2.order = db.order := by
  cases hpid : parseObjectId payload.product_id with
  | none => simp only [add_to_cart, hpid]
  | some pid =>
    cases hprod : db.product.find? (fun pr => pr.id = pid) with
    | none => simp only [add_to_cart, hpid, hprod]
    | some prod =>
      cases hfind : db.cart.find?
          (fun c => c.user_id = u.id ∧ c.product_id = payload.product_id) with
      | some existing => simp only [add_to_cart, hpid, hprod, hfind]
      | none => simp only [add_to_cart, hpid, hprod, hfind]

theorem remove_cart_item_order_frame (db : DB) (item_id : String) (u : User) :
    (remove_cart_item db item_id u).2.order = db.order := by
  cases hpid : parseObjectId item_id with
  | none => simp only [remove_cart_item, hpid]
  | some iid =>
    by_cases hcnt : (deleteFirst
        (fun c => decide (c.id = iid ∧ c.user_id = u.id)) db.cart).2 = 0
    all_goals simp only [remove_cart_item, hpid, hcnt, if_true, if_false]

/-- C7: a placed order's line items are value copies of the cart items at
checkout time (themselves copied from the product at add time), and the
order store — hence every placed order's line items and total — is left
unchanged by any subsequent mutation of the product store (price update) or
of the cart store (add-to-cart or remove, the only cart-mutating
endpoints). -/
theorem C7_order_snapshot (db : DB) (now now2 : Nat) (p : PlaceOrderPayload)
    (u : User) (h : userCart db u ≠ []) (pid : String) (price : ℚ)
    (payload2 : CartItemPayload) (u2 : User) (item_id : String) (u3 : User) :
    ∃ o : Order,
      (place_order db now p u).2.1.order = db.order ++ [o] ∧
      o.items = (userCart db u).map snapshotItem ∧
      (set_product_price (place_order db now p u).2.1 pid price).order =
        db.order ++ [o] ∧
      (add_to_cart (place_order db now p u).2.1 now2 payload2 u2).2.order =
        db.order ++ [o] ∧
      (remove_cart_item (place_order db now p u).2.1 item_id u3).2.order =
        db.order ++ [o] := by
  refine ⟨checkoutOrder db now p u, ?_, rfl, ?_, ?_, ?_⟩
  · rw [place_order_of_ne db now p u h]
  · rw [show (set_product_price (place_order db now p u).2.1 pid price).order =
        (place_order db now p u).2.1.order from rfl]
    rw [place_order_of_ne db now p u h]
  · rw [add_to_cart_order_frame]
    rw [place_order_of_ne db now p u h]
  · rw [remove_cart_item_order_frame]
    rw [place_order_of_ne db now p u h]

theorem C7_order_snapshot_witness :
    userCart dbW userW ≠ [] ∧
    ∃ o : Order,
      (place_order dbW 7 ⟨"addr", "cod"⟩ userW).2.1.order = dbW.order ++ [o] ∧
      o.items = (userCart dbW userW).map snapshotItem ∧
      (set_product_price (place_order dbW 7 ⟨"addr", "cod"⟩ userW).2.1
        prodW.id 999).order = dbW.order ++ [o] ∧
      (add_to_cart (place_order dbW 7 ⟨"addr", "cod"⟩ userW).2.1 8 payloadW
        userW).2.order = dbW.order ++ [o] ∧
      (remove_cart_item (place_order dbW 7 ⟨"addr", "cod"⟩ userW).2.1
        itemW.id userW).2.order = dbW.order ++ [o] :=
  ⟨by decide, C7_order_snapshot dbW 7 8 ⟨"addr", "cod"⟩ userW (by decide)
    prodW.id 999 payloadW userW itemW.id userW⟩

/-! ### C6 -/

/-- C6 counterexample: the header "Bearer zzz" is present, splits into
exactly two space-separated parts with scheme "bearer", has a non-empty
token, and does not resolve to a user — so by the claim it should yield an
unauthorized (401) error — yet the gate answers with a 500 internal error
(the uncaught `bson.errors.InvalidId` from `ObjectId("zzz")`), which is not
an unauthorized error. -/
theorem C6_auth_counterexample :
    current_user dbW (some "Bearer zzz") =
      .error ⟨500, "Internal Server Error"⟩ ∧
    pySplitSpace "Bearer zzz" = ["Bearer", "zzz"] ∧
    lowerStr "Bearer" = "bearer" ∧ "zzz" ≠ "" ∧ (500 : Nat) ≠ 401 :=
  ⟨rfl, rfl, rfl, by decide, by decide⟩

/-- C6 (amended): the gate resolves to a user iff the Authorization header
is present, splits into exactly two space-separated parts, the first part
case-insensitively equals "bearer", the second part is non-empty, is a
well-formed id, and resolves to an existing user; every other input yields
a 401 unauthorized error, EXCEPT that a syntactically valid bearer header
whose non-empty token is not a well-formed id surfaces as a 500 internal
error rather than unauthorized.  (The gate only reads the store: its result
carries no updated state.) -/
theorem C6_auth_gate (db : DB) (auth : Option String) :
    ((∃ u, current_user db auth = .ok u) ↔
      (∃ a scheme token uid u, auth = some a ∧
        pySplitSpace a = [scheme, token] ∧
        lowerStr scheme = "bearer" ∧ token ≠ "" ∧
        parseObjectId token = some uid ∧
        db.user.find? (fun v => v.id = uid) = some u)) ∧
    (∀ e, current_user db auth = .error e →
      e.status = 401 ∨
        (e.status = 500 ∧ ∃ a scheme token, auth = some a ∧
          pySplitSpace a = [scheme, token] ∧
          lowerStr scheme = "bearer" ∧ token ≠ "" ∧
          parseObjectId token = none)) := by
  cases auth with
  | none =>
    have hmiss : current_user db none =
        .error ⟨401, "Missing Authorization header"⟩ := rfl
    constructor
    · constructor
      · rintro ⟨u, hu⟩
        rw [hmiss] at hu
        cases hu
      · rintro ⟨a, scheme, token, uid, u, heq, _⟩
        cases heq
    · intro e he
      rw [hmiss] at he
      cases he
      left
      rfl
  | some a =>
    by_cases ha : a = ""
    · subst ha
      have hmiss : current_user db (some "") =
          .error ⟨401, "Missing Authorization header"⟩ := rfl
      constructor
      · constructor
        · rintro ⟨u, hu⟩
          rw [hmiss] at hu
          cases hu
        · rintro ⟨a', scheme, token, uid, u, heq, hsp, _⟩
          cases heq
          cases hsp
      · intro e he
        rw [hmiss] at he
        cases he
        left
        rfl
    · rcases hsp : pySplitSpace a with _ | ⟨scheme, _ | ⟨token, _ | ⟨x, rest⟩⟩⟩
      case neg.nil =>
        have h401 : current_user db (some a) =
            .error ⟨401, "Invalid Authorization header"⟩ := by
          simp only [current_user, hsp]
          rw [if_neg ha]
        refine ⟨⟨?_, ?_⟩, ?_⟩
        · rintro ⟨u, hu⟩
          rw [h401] at hu
          cases hu
        · rintro ⟨a', scheme, token, uid, u, heq, hsp', _⟩
          cases heq
          rw [hsp] at hsp'
          cases hsp'
        · intro e he
          rw [h401] at he
          cases he
          left
          rfl
      case neg.cons.nil =>
        have h401 : current_user db (some a) =
            .error ⟨401, "Invalid Authorization header"⟩ := by
          simp only [current_user, hsp]
          rw [if_neg ha]
        refine ⟨⟨?_, ?_⟩, ?_⟩
        · rintro ⟨u, hu⟩
          rw [h401] at hu
          cases hu
        · rintro ⟨a', scheme', token', uid, u, heq, hsp', _⟩
          cases heq
          rw [hsp] at hsp'
          cases hsp'
        · intro e he
          rw [h401] at he
          cases he
          left
          rfl
      case neg.cons.cons.cons =>
        have h401 : current_user db (some a) =
            .error ⟨401, "Invalid Authorization header"⟩ := by
          simp only [current_user, hsp]
          rw [if_neg ha]
        refine ⟨⟨?_, ?_⟩, ?_⟩
        · rintro ⟨u, hu⟩
          rw [h401] at hu
          cases hu
        · rintro ⟨a', scheme', token', uid, u, heq, hsp', _⟩
          cases heq
          rw [hsp] at hsp'
          cases hsp'
        · intro e he
          rw [h401] at he
          cases he
          left
          rfl
      case neg.cons.cons.nil =>
        by_cases hb : lowerStr scheme = "bearer" ∧ token ≠ ""
        · cases hpt : parseObjectId token with
          | none =>
            have h500 : current_user db (some a) =
                .error ⟨500, "Internal Server Error"⟩ := by
              simp only [current_user, hsp]
              rw [if_neg ha, if_pos hb, hpt]
            refine ⟨⟨?_, ?_⟩, ?_⟩
            · rintro ⟨u, hu⟩
              rw [h500] at hu
              cases hu
            · rintro ⟨a', scheme', token', uid, u, heq, hsp', hb1, hb2, hpt', hfind⟩
              cases heq
              rw [hsp] at hsp'
              cases hsp'
              rw [hpt] at hpt'
              cases hpt'
            · intro e he
              rw [h500] at he
              cases he
              right
              exact ⟨rfl, a, scheme, token, rfl, hsp, hb.1, hb.2, hpt⟩
          | some uid =>
            cases hfind : db.user.find? (fun v => v.id = uid) with
            | none =>
              have h401 : current_user db (some a) =
                  .error ⟨401, "Invalid user"⟩ := by
                simp only [current_user, hsp]
                rw [if_neg ha, if_pos hb, hpt]
                simp only [hfind]
              refine ⟨⟨?_, ?_⟩, ?_⟩
              · rintro ⟨u, hu⟩
                rw [h401] at hu
                cases hu
              · rintro ⟨a', scheme', token', uid', u, heq, hsp', hb1, hb2, hpt', hfind'⟩
                cases heq
                rw [hsp] at hsp'
                cases hsp'
                rw [hpt] at hpt'
                cases hpt'
                rw [hfind] at hfind'
                cases hfind'
              · intro e he
                rw [h401] at he
                cases he
                left
                rfl
            | some u0 =>
              have hok : current_user db (some a) = .ok u0 := by
                simp only [current_user, hsp]
                rw [if_neg ha, if_pos hb, hpt]
                simp only [hfind]
              refine ⟨⟨?_, ?_⟩, ?_⟩
              · rintro ⟨u, _⟩
                exact ⟨a, scheme, token, uid, u0, rfl, hsp, hb.1, hb.2, hpt, hfind⟩
              · rintro ⟨a', scheme', token', uid', u, heq, hsp', hb1, hb2, hpt', hfind'⟩
                exact ⟨u0, hok⟩
              · intro e he
                rw [hok] at he
                cases he
        · have h401 : current_user db (some a) =
              .error ⟨401, "Invalid token"⟩ := by
            simp only [current_user, hsp]
            rw [if_neg ha, if_neg hb]
          refine ⟨⟨?_, ?_⟩, ?_⟩
          · rintro ⟨u, hu⟩
            rw [h401] at hu
            cases hu
          · rintro ⟨a', scheme', token', uid', u, heq, hsp', hb1, hb2, hpt', hfind'⟩
            cases heq
            rw [hsp] at hsp'
            cases hsp'
            exact absurd ⟨hb1, hb2⟩ hb
          · intro e he
            rw [h401] at he
            cases he
            left
            rfl

theorem C6_auth_gate_witness :
    ∃ u, current_user dbW (some ("Bearer " ++ userW.id)) = .ok u :=
  (C6_auth_gate dbW (some ("Bearer " ++ userW.id))).1.mpr
    ⟨"Bearer " ++ userW.id, "Bearer", userW.id, userW.id, userW,
     rfl, by rfl, by rfl, by decide, by rfl, by rfl⟩
